import Mathlib

/-!
Shallow embedding of the Zerynth BH1750FVI ambient-light-sensor driver
(`bh1750fvi.py`) and verification of its specification claims.

Modelling conventions:
* Python numbers are modelled exactly: integers and floats appearing in the
  driver's calibration arithmetic are represented by `ℚ` (the spec treats
  them as real numbers; every literal in the source is a decimal that `ℚ`
  represents exactly).  A Python `int` value corresponds to a rational with
  denominator 1.
* Python's arbitrary-precision integer bit operations (`>>`, `<<`, `|`, `&`)
  are modelled on `Nat` (all shifted values in the driver are nonnegative).
  In particular `(x << 3) >> 3 = x` on Python ints — there is no 8-bit
  truncation.
* Applying a shift to a non-integral value raises `TypeError` in Python;
  the model returns `Except.error PyErr.typeError` in that case, after the
  field assignments that precede it in the source have taken effect.
* `raise ValueError` is modelled by `Except.error PyErr.valueError`; the
  spec's `InvalidAddressError` / `InvalidResolutionError` both correspond to
  the source's `ValueError`.
* Bus traffic (`write_bytes`) is modelled by returning the list of bytes
  written, in order; `sleep(t)` is modelled by returning `t`.
-/

namespace BH1750

/-- Opcode constant from the source: no active state. -/
def POWER_DOWN : Nat := 0x00

/-- Opcode constant from the source: waiting for measurement command. -/
def POWER_ON : Nat := 0x01

/-- Opcode constant from the source: reset data register value. -/
def RESET : Nat := 0x07

/-- Opcode: continuous measurement at 4 lx resolution. -/
def CONTINUOUS_LOW_RES_MODE : Nat := 0x13

/-- Opcode: continuous measurement at 1 lx resolution. -/
def CONTINUOUS_HIGH_RES_MODE_1 : Nat := 0x10

/-- Opcode: continuous measurement at 0.5 lx resolution. -/
def CONTINUOUS_HIGH_RES_MODE_2 : Nat := 0x11

/-- Opcode: one-time measurement at 1 lx resolution. -/
def ONE_TIME_HIGH_RES_MODE_1 : Nat := 0x20

/-- Opcode: one-time measurement at 0.5 lx resolution. -/
def ONE_TIME_HIGH_RES_MODE_2 : Nat := 0x21

/-- Opcode: one-time measurement at 4 lx resolution. -/
def ONE_TIME_LOW_RES_MODE : Nat := 0x23

/-- Tag for the measurement-time register MSB write. -/
def MEASUREMENT_TIME_H : Nat := 0x40

/-- Tag for the measurement-time register LSB write. -/
def MEASUREMENT_TIME_L : Nat := 0x60

/-- Default MTreg value (datasheet). -/
def MTREG_DEFAULT : ℚ := 69

/-- Minimum MTreg value. -/
def MTREG_MIN : ℚ := 31

/-- Maximum MTreg value. -/
def MTREG_MAX : ℚ := 254

/-- Minimum sensitivity. -/
def SENSITIVITY_MIN : ℚ := 0.45

/-- Maximum sensitivity. -/
def SENSITIVITY_MAX : ℚ := 3.68

/-- Minimum accuracy. -/
def ACCURACY_MIN : ℚ := 0.96

/-- Maximum accuracy. -/
def ACCURACY_MAX : ℚ := 1.44

/-- Python exceptions raised by the driver's own code. -/
inductive PyErr where
  | valueError
  | typeError
deriving DecidableEq, Repr

/-- The mutable instance fields of a `BH1750FVI` object that the claims are
about: `self.mode`, `self.sensitivity`, `self.mtreg`, `self.accuracy`,
`self.resolution`.  `self.resolution` stores a mode opcode (not an index). -/
structure DriverState where
  mode : Nat
  sensitivity : ℚ
  mtreg : ℚ
  accuracy : ℚ
  resolution : Nat
deriving DecidableEq, Repr

/-- `list_meas_mode` from the source: the fixed ordered list of the six
measurement-mode opcodes. -/
def list_meas_mode : List Nat :=
  [ONE_TIME_HIGH_RES_MODE_1,
   ONE_TIME_HIGH_RES_MODE_2,
   ONE_TIME_LOW_RES_MODE,
   CONTINUOUS_HIGH_RES_MODE_1,
   CONTINUOUS_HIGH_RES_MODE_2,
   CONTINUOUS_LOW_RES_MODE]

/-- `set_mode`: records the mode in `self.mode` and writes it to the bus. -/
def set_mode (s : DriverState) (mode : Nat) : DriverState × List Nat :=
  ({ s with mode := mode }, [mode])

/-- `reset`: power on, then issue the Reset opcode; both via `set_mode`. -/
def reset (s : DriverState) : DriverState × List Nat :=
  let r1 := set_mode s POWER_ON
  let r2 := set_mode r1.1 RESET
  (r2.1, r1.2 ++ r2.2)

/-- The clamped state stored by `set_sensitivity` before any bus write:
`valueMTreg = sensitivity * 69`, clamped at `MTREG_MIN`/`MTREG_MAX` with the
boundary sensitivity substituted, otherwise stored verbatim. -/
def sens_store (s : DriverState) (sensitivity : ℚ) : DriverState :=
  let valueMTreg := sensitivity * MTREG_DEFAULT
  if valueMTreg < MTREG_MIN then
    { s with mtreg := MTREG_MIN, sensitivity := SENSITIVITY_MIN }
  else if valueMTreg > MTREG_MAX then
    { s with mtreg := MTREG_MAX, sensitivity := SENSITIVITY_MAX }
  else
    { s with mtreg := valueMTreg, sensitivity := sensitivity }

/-- `set_sensitivity`: stores the clamped `mtreg`/`sensitivity` pair, then
splits `mtreg` into two register writes.  The field assignments happen first
in the source; the subsequent `>>= 5` raises `TypeError` when the stored
`mtreg` is not a Python int (denominator ≠ 1), with the fields already
updated.  On a Python int, `(x << 3) >> 3 = x` (no fixed-width truncation). -/
def set_sensitivity (s : DriverState) (sensitivity : ℚ) :
    DriverState × Except PyErr (List Nat) :=
  let s1 := sens_store s sensitivity
  if s1.mtreg.den = 1 then
    let m := s1.mtreg.num.toNat
    let meas_TimeHighBit := (m >>> 5) ||| MEASUREMENT_TIME_H
    let meas_TimeLowBit := ((m <<< 3) >>> 3) ||| MEASUREMENT_TIME_L
    (s1, .ok [meas_TimeHighBit, meas_TimeLowBit])
  else
    (s1, .error .typeError)

/-- `get_sensitivity`: returns the stored sensitivity. -/
def get_sensitivity (s : DriverState) : ℚ :=
  s.sensitivity

/-- `get_result`: combines the two bytes read from the bus,
`data[0]` the high byte and `data[1]` the low byte. -/
def get_result (high_bytes low_bytes : Nat) : Nat :=
  low_bytes + 256 * high_bytes

/-- Python `int(q)` on a float: truncation toward zero. -/
def pyInt (q : ℚ) : ℤ :=
  if 0 ≤ q then ⌊q⌋ else ⌈q⌉

/-- `wait_for_result`: basetime 16 ms when `(mode & 0x03) == 0x03`
(low-resolution modes), else 120 ms; sleeps `int(basetime * sensitivity)`
milliseconds.  The returned value is the slept duration. -/
def wait_for_result (mode : Nat) (sensitivity : ℚ) : ℤ :=
  let basetime : ℚ := if mode &&& 0x03 = 0x03 then 16 else 120
  pyInt (basetime * sensitivity)

/-- `do_measurement`: reset, write the mode opcode directly to the bus
(without going through `set_mode`), wait, then read the result.  Returns the
new state, the bytes written, the slept milliseconds, and the raw result
computed from the two bytes supplied by the bus. -/
def do_measurement (s : DriverState) (mode high_bytes low_bytes : Nat) :
    DriverState × List Nat × ℤ × Nat :=
  let r := reset s
  (r.1, r.2 ++ [mode], wait_for_result mode r.1.sensitivity,
   get_result high_bytes low_bytes)

/-- `set_accuracy`: clamps to `[0.96, 1.44]` with the exact boundary
constants substituted, otherwise stores the argument verbatim. -/
def set_accuracy (s : DriverState) (accuracy : ℚ) : DriverState :=
  if accuracy < ACCURACY_MIN then { s with accuracy := 0.96 }
  else if accuracy > ACCURACY_MAX then { s with accuracy := 1.44 }
  else { s with accuracy := accuracy }

/-- `get_accuracy`: returns the stored accuracy. -/
def get_accuracy (s : DriverState) : ℚ :=
  s.accuracy

/-- `set_resolution`: raises `ValueError` when `res` is not in
`[1, 2, 3, 4, 5, 6]` (before any field assignment, so the state is
unchanged), else stores `list_meas_mode[res - 1]` in `self.resolution`. -/
def set_resolution (s : DriverState) (res : ℤ) : DriverState × Except PyErr Unit :=
  if res ∈ ([1, 2, 3, 4, 5, 6] : List ℤ) then
    ({ s with resolution := list_meas_mode.getD (res - 1).toNat 0 }, .ok ())
  else
    (s, .error .valueError)

/-- `get_resolution`: `list_meas_mode.index(self.resolution) + 1`.  (Python
`.index` raises on a missing element; every claim using this operates on
states whose `resolution` is one of the six opcodes, where `indexOf` agrees
with Python.) -/
def get_resolution (s : DriverState) : Nat :=
  list_meas_mode.indexOf s.resolution + 1

/-- `get_value`: measure with the stored resolution opcode, convert
`raw / (accuracy * sensitivity)`, and halve when the active resolution
index is 2 or 5 (the 0.5 lx modes).  Returns the new state and the lux
value. -/
def get_value (s : DriverState) (high_bytes low_bytes : Nat) :
    DriverState × ℚ :=
  let r := do_measurement s s.resolution high_bytes low_bytes
  let raw_value := r.2.2.2
  let light : ℚ := (raw_value : ℚ) / (r.1.accuracy * r.1.sensitivity)
  let light := if get_resolution r.1 ∈ ([2, 5] : List Nat) then light * 0.5
               else light
  (r.1, light)

/-- `__init__`: rejects any address other than 0x23 / 0x5c with
`ValueError`, then powers down and applies the default sensitivity (1),
accuracy (1.2) and resolution (1).  The instance fields are unset before
`__init__` assigns them; the model threads a zero-initialised record, every
field of which is overwritten before the constructor returns.  Returns the
constructed state and the bytes written. -/
def mkDriver (addr : Nat) : Except PyErr (DriverState × List Nat) :=
  if addr ≠ 0x23 ∧ addr ≠ 0x5c then .error .valueError
  else
    let s0 : DriverState :=
      { mode := 0, sensitivity := 0, mtreg := 0, accuracy := 0, resolution := 0 }
    let r1 := set_mode s0 POWER_DOWN
    match set_sensitivity r1.1 1 with
    | (_, .error e) => .error e
    | (s2, .ok w2) =>
      let s3 := set_accuracy s2 (1.2 : ℚ)
      match set_resolution s3 1 with
      | (_, .error e) => .error e
      | (s4, .ok _) => .ok (s4, r1.2 ++ w2)

/-- The state produced by a successful construction. -/
def initSt : DriverState :=
  { mode := 0, sensitivity := 1, mtreg := 69, accuracy := 1.2,
    resolution := ONE_TIME_HIGH_RES_MODE_1 }

/-- One invocation of a public driver operation, with its arguments (and,
for a measurement, the two bytes the bus returns). -/
inductive Op where
  | opSetMode (m : Nat)
  | opReset
  | opSetSensitivity (f : ℚ)
  | opSetAccuracy (a : ℚ)
  | opSetResolution (r : ℤ)
  | opGetValue (high_bytes low_bytes : Nat)

/-- The state of the driver object after one public operation (for the
fallible operations this is the object's state whether or not the call
raised, since in the source every field assignment precedes the raise or
none happens at all). -/
def applyOp (s : DriverState) : Op → DriverState
  | .opSetMode m => (set_mode s m).1
  | .opReset => (reset s).1
  | .opSetSensitivity f => (set_sensitivity s f).1
  | .opSetAccuracy a => set_accuracy s a
  | .opSetResolution r => (set_resolution s r).1
  | .opGetValue hb lb => (get_value s hb lb).1

/-- A state is reachable when it arises from a successful construction
followed by any sequence of public operations. -/
def Reachable (s : DriverState) : Prop :=
  ∃ (addr : Nat) (s0 : DriverState) (w : List Nat) (ops : List Op),
    mkDriver addr = .ok (s0, w) ∧ s = ops.foldl applyOp s0

/-- `clamp(q, lo, hi)` as used by the spec's invariant statement. -/
def clampQ (q lo hi : ℚ) : ℚ :=
  max lo (min q hi)

/-- The relation that actually links the stored `mtreg` and `sensitivity`
fields: either a clamp fired and both are the corresponding boundary
constants, or `mtreg` is exactly `sensitivity * 69` and lies in range. -/
def mtregInv (s : DriverState) : Prop :=
  (s.mtreg = 31 ∧ s.sensitivity = 0.45) ∨
  (s.mtreg = 254 ∧ s.sensitivity = 3.68) ∨
  (s.mtreg = s.sensitivity * 69 ∧ 31 ≤ s.mtreg ∧ s.mtreg ≤ 254)

theorem sens_store_inv (s : DriverState) (f : ℚ) : mtregInv (sens_store s f) := by
  unfold mtregInv
  simp only [sens_store, MTREG_DEFAULT, MTREG_MIN, MTREG_MAX,
    SENSITIVITY_MIN, SENSITIVITY_MAX]
  split_ifs with h1 h2
  · exact Or.inl ⟨rfl, rfl⟩
  · exact Or.inr (Or.inl ⟨rfl, rfl⟩)
  · exact Or.inr (Or.inr ⟨rfl, by dsimp only; constructor <;> linarith⟩)

theorem set_sensitivity_fst (s : DriverState) (f : ℚ) :
    (set_sensitivity s f).1 = sens_store s f := by
  simp only [set_sensitivity]
  split_ifs <;> rfl

theorem applyOp_inv (s : DriverState) (op : Op) (h : mtregInv s) :
    mtregInv (applyOp s op) := by
  have hs : ∀ t : DriverState, t.mtreg = s.mtreg → t.sensitivity = s.sensitivity →
      mtregInv t := by
    intro t h1 h2
    unfold mtregInv at h ⊢
    rw [h1, h2]
    exact h
  cases op with
  | opSetMode m => exact hs _ rfl rfl
  | opReset => exact hs _ rfl rfl
  | opSetSensitivity f =>
      show mtregInv (set_sensitivity s f).1
      rw [set_sensitivity_fst]
      exact sens_store_inv s f
  | opSetAccuracy a =>
      show mtregInv (set_accuracy s a)
      unfold set_accuracy
      split_ifs <;> exact hs _ rfl rfl
  | opSetResolution r =>
      show mtregInv (set_resolution s r).1
      unfold set_resolution
      split <;> exact hs _ rfl rfl
  | opGetValue hb lb => exact hs _ rfl rfl

theorem mkDriver_eq (addr : Nat) :
    mkDriver addr =
      if addr ≠ 0x23 ∧ addr ≠ 0x5c then .error .valueError
      else .ok (initSt, [0, 66, 101]) := by
  by_cases hc : addr ≠ 0x23 ∧ addr ≠ 0x5c
  · rw [if_pos hc]
    unfold mkDriver
    rw [if_pos hc]
  · rw [if_neg hc]
    unfold mkDriver
    rw [if_neg hc]
    norm_num [set_mode, set_sensitivity, sens_store, set_accuracy,
      set_resolution, initSt, POWER_DOWN, MTREG_DEFAULT, MTREG_MIN, MTREG_MAX,
      ACCURACY_MIN, ACCURACY_MAX, MEASUREMENT_TIME_H, MEASUREMENT_TIME_L,
      list_meas_mode, ONE_TIME_HIGH_RES_MODE_1]
    decide

theorem mkDriver_ok (addr : Nat) (s0 : DriverState) (w : List Nat)
    (h : mkDriver addr = .ok (s0, w)) : s0 = initSt ∧ w = [0, 66, 101] := by
  rw [mkDriver_eq] at h
  split at h
  · exact absurd h (by simp)
  · simp only [Except.ok.injEq, Prod.mk.injEq] at h
    exact ⟨h.1.symm, h.2.symm⟩

theorem initSt_mtregInv : mtregInv initSt := by
  unfold mtregInv initSt
  refine Or.inr (Or.inr ⟨by norm_num, by norm_num, by norm_num⟩)

theorem foldl_inv (ops : List Op) (s : DriverState) (h : mtregInv s) :
    mtregInv (ops.foldl applyOp s) := by
  induction ops generalizing s with
  | nil => exact h
  | cons op rest ih => exact ih _ (applyOp_inv s op h)

theorem reachable_mtregInv (s : DriverState) (h : Reachable s) : mtregInv s := by
  obtain ⟨addr, s0, w, ops, hmk, rfl⟩ := h
  obtain ⟨h0, -⟩ := mkDriver_ok addr s0 w hmk
  subst h0
  exact foldl_inv ops _ initSt_mtregInv

theorem reachable_initSt : Reachable initSt :=
  ⟨0x23, initSt, [0, 66, 101], [], by rw [mkDriver_eq]; norm_num, rfl⟩

/-- C1 counterexample: calling `set_sensitivity` with factor 3.681 (which is
in `[0, 10]`) leaves the candidate `v = 3.681 * 69 = 253.989` unclamped, so
the stored sensitivity is 3.681, strictly above the claimed upper bound
3.68.  Hence "for every factor in [0, 10] the stored sensitivity lies in
[0.45, 3.68]" is false. -/
theorem set_sensitivity_range_counterexample :
    (0 : ℚ) ≤ 3.681 ∧ (3.681 : ℚ) ≤ 10 ∧
    ((set_sensitivity initSt 3.681).1).sensitivity = 3.681 ∧
    ¬ ((set_sensitivity initSt 3.681).1).sensitivity ≤ 3.68 := by
  rw [set_sensitivity_fst]
  norm_num [sens_store, MTREG_DEFAULT, MTREG_MIN, MTREG_MAX]

/-- C1 (amended): `set_sensitivity(factor)` with candidate `v = factor * 69`
stores `mtreg = 31`, `sensitivity = 0.45` when `v < 31`, `mtreg = 254`,
`sensitivity = 3.68` when `v > 254`, and otherwise `mtreg = v` and
`sensitivity = factor` verbatim; consequently for every factor in `[0, 10]`
the stored mtreg lies in `[31, 254]` and the stored sensitivity lies in
`[31/69, 254/69]` (not `[0.45, 3.68]`), and `get_sensitivity` returns the
stored (possibly clamped) value. -/
theorem set_sensitivity_clamp_and_range (s : DriverState) (factor : ℚ) :
    (factor * 69 < 31 →
      (set_sensitivity s factor).1.mtreg = 31 ∧
      (set_sensitivity s factor).1.sensitivity = 0.45) ∧
    (factor * 69 > 254 →
      (set_sensitivity s factor).1.mtreg = 254 ∧
      (set_sensitivity s factor).1.sensitivity = 3.68) ∧
    (31 ≤ factor * 69 → factor * 69 ≤ 254 →
      (set_sensitivity s factor).1.mtreg = factor * 69 ∧
      (set_sensitivity s factor).1.sensitivity = factor) ∧
    (0 ≤ factor → factor ≤ 10 →
      31 ≤ (set_sensitivity s factor).1.mtreg ∧
      (set_sensitivity s factor).1.mtreg ≤ 254 ∧
      31 / 69 ≤ (set_sensitivity s factor).1.sensitivity ∧
      (set_sensitivity s factor).1.sensitivity ≤ 254 / 69) ∧
    get_sensitivity (set_sensitivity s factor).1 =
      (set_sensitivity s factor).1.sensitivity := by
  rw [set_sensitivity_fst]
  unfold get_sensitivity
  simp only [sens_store, MTREG_DEFAULT, MTREG_MIN, MTREG_MAX,
    SENSITIVITY_MIN, SENSITIVITY_MAX]
  split_ifs with h1 h2
  · refine ⟨fun _ => ⟨rfl, rfl⟩, fun hc => absurd hc (by linarith),
      fun hc _ => absurd h1 (by linarith), fun _ _ => by norm_num, ?_⟩
    trivial
  · refine ⟨fun hc => absurd hc (by linarith), fun _ => ⟨rfl, rfl⟩,
      fun _ hc => absurd h2 (by linarith), fun _ _ => by norm_num, ?_⟩
    trivial
  · refine ⟨fun hc => absurd hc h1, fun hc => absurd hc h2,
      fun _ _ => ⟨rfl, rfl⟩, fun _ _ => ?_, ?_⟩
    · refine ⟨?_, ?_, ?_, ?_⟩ <;> (try dsimp only) <;> linarith
    · trivial

/-- C1 witness: factor 2 is in `[0, 10]` and yields mtreg 138 within
`[31, 254]` and sensitivity 2 within `[31/69, 254/69]`. -/
theorem set_sensitivity_clamp_and_range_witness :
    31 ≤ (set_sensitivity initSt 2).1.mtreg ∧
    (set_sensitivity initSt 2).1.mtreg ≤ 254 ∧
    31 / 69 ≤ (set_sensitivity initSt 2).1.sensitivity ∧
    (set_sensitivity initSt 2).1.sensitivity ≤ 254 / 69 :=
  (set_sensitivity_clamp_and_range initSt 2).2.2.2.1 (by norm_num) (by norm_num)

/-- C2 counterexample: the reachable state after `set_sensitivity(1.5)` has
`mtreg = 103.5` — a non-integer (denominator 2) different from
`round(1.5 * 69) = 104` — and the reachable state after
`set_sensitivity(0.1)` has `mtreg = 31` while
`clamp(sensitivity * 69, 31, 254) = clamp(0.45 * 69, 31, 254) = 31.05`,
so the claimed invariant `mtreg = clamp(sensitivity * 69, 31, 254)` fails
as well. -/
theorem mtreg_invariant_counterexample :
    Reachable ((set_sensitivity initSt 1.5).1) ∧
    (0.449 : ℚ) ≤ 1.5 ∧ (1.5 : ℚ) ≤ 3.681 ∧
    ((set_sensitivity initSt 1.5).1).mtreg = 207 / 2 ∧
    ((set_sensitivity initSt 1.5).1).mtreg.den = 2 ∧
    ((set_sensitivity initSt 1.5).1).mtreg ≠ 104 ∧
    Reachable ((set_sensitivity initSt 0.1).1) ∧
    ((set_sensitivity initSt 0.1).1).mtreg = 31 ∧
    clampQ (((set_sensitivity initSt 0.1).1).sensitivity * 69) 31 254 ≠ 31 := by
  have hmk : mkDriver 0x23 = .ok (initSt, [0, 66, 101]) := by
    rw [mkDriver_eq]; norm_num
  have hm15 : (set_sensitivity initSt 1.5).1 = sens_store initSt 1.5 :=
    set_sensitivity_fst initSt 1.5
  have hv15 : sens_store initSt 1.5 = { initSt with mtreg := 207 / 2, sensitivity := 1.5 } := by
    norm_num [sens_store, MTREG_DEFAULT, MTREG_MIN, MTREG_MAX, initSt]
  have hv01 : (set_sensitivity initSt 0.1).1 =
      { initSt with mtreg := 31, sensitivity := 0.45 } := by
    rw [set_sensitivity_fst]
    norm_num [sens_store, MTREG_DEFAULT, MTREG_MIN, MTREG_MAX,
      SENSITIVITY_MIN, initSt]
  refine ⟨⟨0x23, initSt, [0, 66, 101], [.opSetSensitivity 1.5], hmk, rfl⟩,
    by norm_num, by norm_num, ?_, ?_, ?_,
    ⟨0x23, initSt, [0, 66, 101], [.opSetSensitivity 0.1], hmk, rfl⟩, ?_, ?_⟩
  · rw [hm15, hv15]
  · rw [hm15, hv15]; norm_num
  · rw [hm15, hv15]; norm_num
  · rw [hv01]
  · rw [hv01]
    norm_num [clampQ, min_def, max_def]

/-- C2 (amended): in every driver state reachable through the public
operations the stored mtreg is a rational (not necessarily integral) lying
in `[31, 254]`, and either a clamp fired (mtreg is the boundary 31 with
sensitivity 0.45, or 254 with sensitivity 3.68) or `mtreg` equals
`sensitivity * 69` exactly; moreover for every factor in `[0.449, 3.681]`,
after `set_sensitivity(factor)` the stored mtreg equals
`clamp(factor * 69, 31, 254)` exactly (no rounding to an integer occurs). -/
theorem reachable_mtreg_invariant (s : DriverState) (h : Reachable s) :
    31 ≤ s.mtreg ∧ s.mtreg ≤ 254 ∧
    ((s.mtreg = 31 ∧ s.sensitivity = 0.45) ∨
     (s.mtreg = 254 ∧ s.sensitivity = 3.68) ∨
     s.mtreg = s.sensitivity * 69) ∧
    (∀ factor : ℚ, 0.449 ≤ factor → factor ≤ 3.681 →
      ((set_sensitivity s factor).1).mtreg = clampQ (factor * 69) 31 254) := by
  have hi := reachable_mtregInv s h
  have hclamp : ∀ factor : ℚ,
      ((set_sensitivity s factor).1).mtreg = clampQ (factor * 69) 31 254 := by
    intro factor
    rw [set_sensitivity_fst]
    unfold clampQ
    simp only [sens_store, MTREG_DEFAULT, MTREG_MIN, MTREG_MAX,
      SENSITIVITY_MIN, SENSITIVITY_MAX]
    split_ifs with h1 h2
    · dsimp only
      rw [min_eq_left (by linarith), max_eq_left (by linarith)]
    · dsimp only
      rw [min_eq_right (by linarith), max_eq_right (by norm_num)]
    · dsimp only
      rw [min_eq_left (by linarith), max_eq_right (by linarith)]
  rcases hi with ⟨hm, hs⟩ | ⟨hm, hs⟩ | ⟨hm, hlo, hhi⟩
  · exact ⟨by rw [hm], by rw [hm]; norm_num, Or.inl ⟨hm, hs⟩,
      fun f _ _ => hclamp f⟩
  · exact ⟨by rw [hm]; norm_num, by rw [hm], Or.inr (Or.inl ⟨hm, hs⟩),
      fun f _ _ => hclamp f⟩
  · exact ⟨hlo, hhi, Or.inr (Or.inr hm), fun f _ _ => hclamp f⟩

/-- C2 witness: the freshly constructed state is reachable and satisfies
the amended invariant; in particular `set_sensitivity(1)` from it stores
`mtreg = clamp(69, 31, 254) = 69`. -/
theorem reachable_mtreg_invariant_witness :
    31 ≤ initSt.mtreg ∧ initSt.mtreg ≤ 254 ∧
    ((initSt.mtreg = 31 ∧ initSt.sensitivity = 0.45) ∨
     (initSt.mtreg = 254 ∧ initSt.sensitivity = 3.68) ∨
     initSt.mtreg = initSt.sensitivity * 69) ∧
    (∀ factor : ℚ, 0.449 ≤ factor → factor ≤ 3.681 →
      ((set_sensitivity initSt factor).1).mtreg = clampQ (factor * 69) 31 254) :=
  reachable_mtreg_invariant initSt
    ⟨0x23, initSt, [0, 66, 101], [], by rw [mkDriver_eq]; norm_num, rfl⟩

/-- C3 (code bug): for stored `mtreg = 138` (produced by
`set_sensitivity(2)`), Python's arbitrary-precision `(mtreg << 3) >> 3` is
the identity, not a 5-bit mask, so the second register write is
`mtreg | 0x60 = 234` (top bit set), while the claim — and the source's own
bit-layout comment `0,1,1,MT[4..0]` — require `(mtreg & 0x1F) | 0x60 = 106`.
The high write and the write order do match the claim. -/
theorem set_sensitivity_low_write_unmasked :
    (set_sensitivity initSt 2).1.mtreg = 138 ∧
    (set_sensitivity initSt 2).2 = .ok [68, 234] ∧
    ((138 <<< 3) >>> 3 : Nat) = 138 ∧
    ((138 : Nat) ||| 0x60) = 234 ∧
    (((138 : Nat) &&& 0x1F) ||| 0x60) = 106 ∧
    (68 : Nat) = (138 >>> 5) ||| 0x40 ∧
    (234 : Nat) ≠ 106 := by
  refine ⟨?_, ?_, by decide, by decide, by decide, by decide, by decide⟩
  · rw [set_sensitivity_fst]
    norm_num [sens_store, MTREG_DEFAULT, MTREG_MIN, MTREG_MAX, initSt]
  · norm_num [set_sensitivity, sens_store, initSt, MTREG_DEFAULT, MTREG_MIN,
      MTREG_MAX, MEASUREMENT_TIME_H, MEASUREMENT_TIME_L]
    decide

/-- C4: for every one of the six measurement-mode opcodes and every
nonnegative sensitivity (every stored sensitivity is nonnegative),
`wait_for_result` sleeps exactly `floor(basetime * sensitivity)`
milliseconds with basetime 16 when `(mode & 0x03) == 0x03` and 120
otherwise; the mask condition holds exactly for the two low-resolution
opcodes 0x13 and 0x23; a low-res opcode with sensitivity 2 waits 32 ms and
a high-res opcode with sensitivity 1 waits 120 ms. -/
theorem wait_for_result_spec (mode : Nat) (sensitivity : ℚ)
    (hm : mode ∈ list_meas_mode) (hs : 0 ≤ sensitivity) :
    ((mode &&& 0x03 = 0x03) ↔ (mode = 0x13 ∨ mode = 0x23)) ∧
    wait_for_result mode sensitivity =
      ⌊(if mode = 0x13 ∨ mode = 0x23 then (16 : ℚ) else 120) * sensitivity⌋ ∧
    wait_for_result 0x13 2 = 32 ∧ wait_for_result 0x23 2 = 32 ∧
    wait_for_result 0x10 1 = 120 ∧ wait_for_result 0x11 1 = 120 ∧
    wait_for_result 0x20 1 = 120 ∧ wait_for_result 0x21 1 = 120 := by
  have hiff : (mode &&& 0x03 = 0x03) ↔ (mode = 0x13 ∨ mode = 0x23) := by
    simp only [list_meas_mode, ONE_TIME_HIGH_RES_MODE_1,
      ONE_TIME_HIGH_RES_MODE_2, ONE_TIME_LOW_RES_MODE,
      CONTINUOUS_HIGH_RES_MODE_1, CONTINUOUS_HIGH_RES_MODE_2,
      CONTINUOUS_LOW_RES_MODE, List.mem_cons, List.not_mem_nil,
      or_false] at hm
    rcases hm with rfl | rfl | rfl | rfl | rfl | rfl <;> decide
  refine ⟨hiff, ?_, ?_, ?_, ?_, ?_, ?_, ?_⟩
  · simp only [wait_for_result, pyInt]
    by_cases hc : mode = 0x13 ∨ mode = 0x23
    · rw [if_pos (hiff.mpr hc), if_pos hc,
        if_pos (mul_nonneg (by norm_num) hs)]
    · rw [if_neg (fun hmm => hc (hiff.mp hmm)), if_neg hc,
        if_pos (mul_nonneg (by norm_num) hs)]
  · norm_num [wait_for_result, pyInt, (by decide : (0x13 : Nat) &&& 0x03 = 3)]
  · norm_num [wait_for_result, pyInt, (by decide : (0x23 : Nat) &&& 0x03 = 3)]
  · norm_num [wait_for_result, pyInt, (by decide : (0x10 : Nat) &&& 0x03 = 0)]
  · norm_num [wait_for_result, pyInt, (by decide : (0x11 : Nat) &&& 0x03 = 1)]
  · norm_num [wait_for_result, pyInt, (by decide : (0x20 : Nat) &&& 0x03 = 0)]
  · norm_num [wait_for_result, pyInt, (by decide : (0x21 : Nat) &&& 0x03 = 1)]

/-- C4 witness: the low-resolution continuous opcode 0x13 with
sensitivity 2. -/
theorem wait_for_result_spec_witness :
    (((0x13 : Nat) &&& 0x03 = 0x03) ↔
      ((0x13 : Nat) = 0x13 ∨ (0x13 : Nat) = 0x23)) ∧
    wait_for_result 0x13 2 =
      ⌊(if (0x13 : Nat) = 0x13 ∨ (0x13 : Nat) = 0x23 then (16 : ℚ) else 120) * 2⌋ ∧
    wait_for_result 0x13 2 = 32 ∧ wait_for_result 0x23 2 = 32 ∧
    wait_for_result 0x10 1 = 120 ∧ wait_for_result 0x11 1 = 120 ∧
    wait_for_result 0x20 1 = 120 ∧ wait_for_result 0x21 1 = 120 :=
  wait_for_result_spec 0x13 2 (by decide) (by norm_num)

/-- The lux value computed by `get_value`, expressed over the pre-call
state: the measurement step only changes `self.mode`, so the conversion
reads the pre-call accuracy, sensitivity and resolution. -/
theorem get_value_snd (s : DriverState) (hb lb : Nat) :
    (get_value s hb lb).2 =
      if get_resolution s ∈ ([2, 5] : List Nat)
      then (get_result hb lb : ℚ) / (s.accuracy * s.sensitivity) * 0.5
      else (get_result hb lb : ℚ) / (s.accuracy * s.sensitivity) := rfl

/-- C5: `get_value` returns `raw / (accuracy * sensitivity)` with
`raw = low + 256 * high`, multiplied by 0.5 exactly when the active
resolution index is 2 or 5 (equivalently, when the stored resolution opcode
is 0x21 or 0x11); with raw 600, accuracy 1.2, sensitivity 1 it returns
500 at resolution index 1 and 250 at resolution index 2. -/
theorem get_value_formula (s : DriverState) (hb lb : Nat)
    (hres : s.resolution ∈ list_meas_mode) :
    ((get_resolution s = 2 ∨ get_resolution s = 5) ↔
      (s.resolution = ONE_TIME_HIGH_RES_MODE_2 ∨
       s.resolution = CONTINUOUS_HIGH_RES_MODE_2)) ∧
    (get_value s hb lb).2 =
      (if get_resolution s = 2 ∨ get_resolution s = 5
       then (get_result hb lb : ℚ) / (s.accuracy * s.sensitivity) * 0.5
       else (get_result hb lb : ℚ) / (s.accuracy * s.sensitivity)) ∧
    get_resolution { initSt with resolution := ONE_TIME_HIGH_RES_MODE_1 } = 1 ∧
    (get_value { initSt with resolution := ONE_TIME_HIGH_RES_MODE_1 } 2 88).2 = 500 ∧
    get_resolution { initSt with resolution := ONE_TIME_HIGH_RES_MODE_2 } = 2 ∧
    (get_value { initSt with resolution := ONE_TIME_HIGH_RES_MODE_2 } 2 88).2 = 250 := by
  have hcase : (get_resolution s = 2 ∨ get_resolution s = 5) ↔
      (s.resolution = ONE_TIME_HIGH_RES_MODE_2 ∨
       s.resolution = CONTINUOUS_HIGH_RES_MODE_2) := by
    simp only [list_meas_mode, ONE_TIME_HIGH_RES_MODE_1,
      ONE_TIME_HIGH_RES_MODE_2, ONE_TIME_LOW_RES_MODE,
      CONTINUOUS_HIGH_RES_MODE_1, CONTINUOUS_HIGH_RES_MODE_2,
      CONTINUOUS_LOW_RES_MODE, List.mem_cons, List.not_mem_nil,
      or_false] at hres
    unfold get_resolution ONE_TIME_HIGH_RES_MODE_2 CONTINUOUS_HIGH_RES_MODE_2
    rcases hres with h | h | h | h | h | h <;> rw [h] <;> decide
  refine ⟨hcase, ?_, by decide, ?_, by decide, ?_⟩
  · rw [get_value_snd]
    simp only [List.mem_cons, List.not_mem_nil, or_false]
  · have h1 : get_resolution { initSt with resolution := ONE_TIME_HIGH_RES_MODE_1 } = 1 := by
      decide
    rw [get_value_snd, h1, if_neg (by decide)]
    dsimp only [initSt]
    norm_num [get_result]
  · have h2 : get_resolution { initSt with resolution := ONE_TIME_HIGH_RES_MODE_2 } = 2 := by
      decide
    rw [get_value_snd, h2, if_pos (by decide)]
    dsimp only [initSt]
    norm_num [get_result]

/-- C5 witness: the fully constructed state (resolution index 1,
accuracy 1.2, sensitivity 1) with raw bytes high 2, low 88. -/
theorem get_value_formula_witness :
    ((get_resolution initSt = 2 ∨ get_resolution initSt = 5) ↔
      (initSt.resolution = ONE_TIME_HIGH_RES_MODE_2 ∨
       initSt.resolution = CONTINUOUS_HIGH_RES_MODE_2)) ∧
    (get_value initSt 2 88).2 =
      (if get_resolution initSt = 2 ∨ get_resolution initSt = 5
       then (get_result 2 88 : ℚ) / (initSt.accuracy * initSt.sensitivity) * 0.5
       else (get_result 2 88 : ℚ) / (initSt.accuracy * initSt.sensitivity)) ∧
    get_resolution { initSt with resolution := ONE_TIME_HIGH_RES_MODE_1 } = 1 ∧
    (get_value { initSt with resolution := ONE_TIME_HIGH_RES_MODE_1 } 2 88).2 = 500 ∧
    get_resolution { initSt with resolution := ONE_TIME_HIGH_RES_MODE_2 } = 2 ∧
    (get_value { initSt with resolution := ONE_TIME_HIGH_RES_MODE_2 } 2 88).2 = 250 :=
  get_value_formula initSt 2 88 (by decide)

/-- C6: `set_accuracy(value)` stores exactly 0.96 when `value < 0.96`,
exactly 1.44 when `value > 1.44`, and `value` unchanged when it lies in
`[0.96, 1.44]`; `get_accuracy` returns the stored value. -/
theorem set_accuracy_clamp (s : DriverState) (v : ℚ) :
    (v < 0.96 → (set_accuracy s v).accuracy = 0.96) ∧
    (1.44 < v → (set_accuracy s v).accuracy = 1.44) ∧
    (0.96 ≤ v → v ≤ 1.44 → (set_accuracy s v).accuracy = v) ∧
    get_accuracy (set_accuracy s v) = (set_accuracy s v).accuracy := by
  unfold set_accuracy get_accuracy ACCURACY_MIN ACCURACY_MAX
  split_ifs with h1 h2
  · exact ⟨fun _ => rfl, fun hc => absurd hc (by linarith),
      fun hc _ => absurd h1 (by linarith), rfl⟩
  · exact ⟨fun hc => absurd hc (by linarith), fun _ => rfl,
      fun _ hc => absurd h2 (by linarith), rfl⟩
  · exact ⟨fun hc => absurd hc h1, fun hc => absurd hc h2,
      fun _ _ => rfl, rfl⟩

/-- C6 witness: 0.5 clamps to 0.96, 2 clamps to 1.44, and the in-range
value 1.2 passes through unchanged. -/
theorem set_accuracy_clamp_witness :
    (set_accuracy initSt 0.5).accuracy = 0.96 ∧
    (set_accuracy initSt 2).accuracy = 1.44 ∧
    (set_accuracy initSt 1.2).accuracy = 1.2 :=
  ⟨(set_accuracy_clamp initSt 0.5).1 (by norm_num),
   (set_accuracy_clamp initSt 2).2.1 (by norm_num),
   (set_accuracy_clamp initSt 1.2).2.2.1 (by norm_num) (by norm_num)⟩

/-- C7: `set_resolution(r)` raises `ValueError` (the spec's
`InvalidResolutionError`) exactly when `r` is outside `{1, 2, 3, 4, 5, 6}`
— in particular for 0 and 7 — and on that error path the whole stored
state is unchanged (the raise precedes any field assignment). -/
theorem set_resolution_invalid (s : DriverState) (r : ℤ) :
    ((set_resolution s r).2 = .error .valueError ↔
      r ∉ ([1, 2, 3, 4, 5, 6] : List ℤ)) ∧
    (r ∉ ([1, 2, 3, 4, 5, 6] : List ℤ) → (set_resolution s r).1 = s) ∧
    (set_resolution s 0).2 = .error .valueError ∧
    (set_resolution s 7).2 = .error .valueError := by
  refine ⟨?_, ?_, ?_, ?_⟩
  · unfold set_resolution
    split_ifs with h
    · exact ⟨fun hc => absurd hc (by simp), fun hn => absurd h hn⟩
    · exact iff_of_true rfl h
  · unfold set_resolution
    split_ifs with h
    · exact fun hn => absurd h hn
    · exact fun _ => rfl
  · unfold set_resolution
    rw [if_neg (by decide)]
  · unfold set_resolution
    rw [if_neg (by decide)]

/-- C7 witness: index 0 is rejected and leaves the constructed state
unchanged. -/
theorem set_resolution_invalid_witness :
    (set_resolution initSt 0).1 = initSt :=
  (set_resolution_invalid initSt 0).2.1 (by decide)

/-- C8: for every `r` in `1..6`, `set_resolution(r)` succeeds and sets the
stored resolution to `list_meas_mode[r - 1]`, and `get_resolution()` called
after it returns `r` (round-trip identity on valid indices). -/
theorem set_resolution_roundtrip (s : DriverState) (r : ℤ)
    (h1 : 1 ≤ r) (h6 : r ≤ 6) :
    (set_resolution s r).2 = .ok () ∧
    (set_resolution s r).1.resolution = list_meas_mode.getD (r - 1).toNat 0 ∧
    (get_resolution ((set_resolution s r).1) : ℤ) = r := by
  have hstep : ∀ t : DriverState, ∀ q : ℤ, q ∈ ([1, 2, 3, 4, 5, 6] : List ℤ) →
      set_resolution t q =
        ({ t with resolution := list_meas_mode.getD (q - 1).toNat 0 }, .ok ()) := by
    intro t q hq
    unfold set_resolution
    rw [if_pos hq]
  interval_cases r <;>
    exact ⟨by rw [hstep s _ (by decide)], by rw [hstep s _ (by decide)],
      by rw [hstep s _ (by decide)]; unfold get_resolution; dsimp only; decide⟩

/-- C8 witness: index 3 maps to the one-time low-resolution opcode 0x23 and
round-trips. -/
theorem set_resolution_roundtrip_witness :
    (set_resolution initSt 3).2 = .ok () ∧
    (set_resolution initSt 3).1.resolution = list_meas_mode.getD ((3 : ℤ) - 1).toNat 0 ∧
    (get_resolution ((set_resolution initSt 3).1) : ℤ) = 3 :=
  set_resolution_roundtrip initSt 3 (by norm_num) (by norm_num)

/-- C9: the constructor raises `ValueError` (the spec's
`InvalidAddressError`) exactly when the device address is neither 0x23 nor
0x5C; construction with 0x5C succeeds and construction with 0x00 fails. -/
theorem mkDriver_address_validation (addr : Nat) :
    (mkDriver addr = .error .valueError ↔ (addr ≠ 0x23 ∧ addr ≠ 0x5c)) ∧
    mkDriver 0x5c = .ok (initSt, [0, 66, 101]) ∧
    mkDriver 0x00 = .error .valueError := by
  refine ⟨?_, by rw [mkDriver_eq]; norm_num, by rw [mkDriver_eq]; norm_num⟩
  rw [mkDriver_eq]
  by_cases hc : addr ≠ 0x23 ∧ addr ≠ 0x5c
  · rw [if_pos hc]
    exact iff_of_true rfl hc
  · rw [if_neg hc]
    exact iff_of_false (by simp) hc

/-- C10: `do_measurement(mode)` (and hence `get_value()`) writes the
measurement opcode to the bus directly rather than via `set_mode`: the
write trace is power-on, reset, then the opcode, and after the call the
stored `mode` field equals the Reset opcode 0x07 — not the measurement
mode — while the `resolution` field is untouched and still tracks the
selected measurement mode. -/
theorem do_measurement_mode_frame (s : DriverState) (mode hb lb : Nat) :
    (do_measurement s mode hb lb).1.mode = RESET ∧
    (do_measurement s mode hb lb).2.1 = [POWER_ON, RESET, mode] ∧
    (do_measurement s mode hb lb).1.resolution = s.resolution ∧
    (do_measurement s mode hb lb).1.sensitivity = s.sensitivity ∧
    (do_measurement s mode hb lb).1.accuracy = s.accuracy ∧
    (get_value s hb lb).1.mode = RESET ∧
    (get_value s hb lb).1.resolution = s.resolution :=
  ⟨rfl, rfl, rfl, rfl, rfl, rfl, rfl⟩

end BH1750
